import Mathlib

/-!
Shallow embedding of the intrinsic-initializer module of
OpenImuCameraCalibrator (src/utils/intrinsic_initializer.cc).

The three initializers call external collaborators (the Theia robust pose
estimators, Eigen's SVD, the double-sphere camera projection math, sqrt and
hypot from libm).  Those collaborators are modelled as oracle functions
bundled in an `Env` record; the embedding is exact in the control flow and
arithmetic of the initializers themselves, with machine doubles modelled by
rationals.  Output reference parameters become explicit initial values and
returned final values.
-/

namespace OpenCamCalib

/-- A 2D point (Eigen::Vector2d). -/
structure Vec2 where
  x : ℚ
  y : ℚ
deriving DecidableEq

/-- A 3D vector (Eigen::Vector3d). -/
abbrev Vec3 := Fin 3 → ℚ

/-- A 3x3 matrix (Eigen::Matrix3d). -/
abbrev Mat3 := Matrix (Fin 3) (Fin 3) ℚ

/-- A 4D vector (Eigen::Vector4d), written with explicit components. -/
structure Vec4 where
  c0 : ℚ
  c1 : ℚ
  c2 : ℚ
  c3 : ℚ
deriving DecidableEq

/-- Difference of two 2D points. -/
def vsub (a b : Vec2) : Vec2 := ⟨a.x - b.x, a.y - b.y⟩

/-- Squared Euclidean norm of a 2D point (Eigen squaredNorm). -/
def sqNorm (a : Vec2) : ℚ := a.x * a.x + a.y * a.y

/-- Eigen hnormalized on a 3-vector: divide the first two components by the
last. -/
def hnormalized (v : Vec3) : Vec2 := ⟨v 0 / v 2, v 1 / v 2⟩

/-- Eigen homogeneous on a 3-vector: append a unit component. -/
def homogeneous (v : Vec3) : Vec4 := ⟨v 0, v 1, v 2, 1⟩

/-- theia::FeatureCorrespondence2D3D: an observed 2D image point matched to a
known 3D world point. -/
structure FeatureCorrespondence2D3D where
  feature : Vec2
  world_point : Vec3
deriving DecidableEq

/-- theia::RansacParameters, opaque to this module and passed through. -/
structure RansacParameters where
  tag : ℕ
deriving DecidableEq

/-- theia::RansacSummary; only the inlier index set is consumed here. -/
structure RansacSummary where
  inliers : List ℕ
deriving DecidableEq

/-- theia::UncalibratedAbsolutePose. -/
structure UncalibratedAbsolutePose where
  rotation : Mat3
  position : Vec3
  focal_length : ℚ
deriving DecidableEq

/-- theia::RadialDistUncalibratedAbsolutePose.  Its translation is in the
camera-local convention. -/
structure RadialDistUncalibratedAbsolutePose where
  rotation : Mat3
  translation : Vec3
  focal_length : ℚ
  radial_distortion : ℚ
deriving DecidableEq

/-- theia::RadialDistUncalibratedAbsolutePoseMetaData: focal length bounds. -/
structure RadialPoseMetaData where
  min_focal_length : ℚ
  max_focal_length : ℚ
deriving DecidableEq

/-- theia::CalibratedAbsolutePose. -/
structure CalibratedAbsolutePose where
  rotation : Mat3
  position : Vec3
deriving DecidableEq

/-- The double-sphere camera intrinsics set by initialize_doublesphere_model
before undistorting and reprojecting. -/
structure DSIntrinsics where
  focal_length : ℚ
  principal_point_x : ℚ
  principal_point_y : ℚ
  aspect : ℚ
  xi : ℚ
  alpha : ℚ
deriving DecidableEq

/-- Oracle functions for the external collaborators: the three Theia robust
estimators, Eigen's SVD null-space vector, libm sqrt and hypot, and the
double-sphere camera model's unprojection and projection. -/
structure Env where
  estimateUncalibratedAbsolutePose :
    RansacParameters → List FeatureCorrespondence2D3D →
      Bool × UncalibratedAbsolutePose × RansacSummary
  estimateRadialDistUncalibratedAbsolutePose :
    RansacParameters → RadialPoseMetaData → List FeatureCorrespondence2D3D →
      Bool × RadialDistUncalibratedAbsolutePose × RansacSummary
  estimateCalibratedAbsolutePose :
    RansacParameters → List FeatureCorrespondence2D3D →
      Bool × CalibratedAbsolutePose × RansacSummary
  svdNullVec : List Vec4 → Vec4
  sqrt : ℚ → ℚ
  hypot : ℚ → ℚ → ℚ
  pixelToNormalizedCoordinates : DSIntrinsics → Vec2 → Vec3
  projectPoint : DSIntrinsics → CalibratedAbsolutePose → Vec4 → Vec2

/-- Result of initialize_pinhole_camera: the returned flag plus the final
values of the in-out reference parameters. -/
structure PinholeResult where
  success : Bool
  ransac_summary : RansacSummary
  rotation : Mat3
  position : Vec3
  focal_length : ℚ
deriving DecidableEq

/-- initialize_pinhole_camera: run the uncalibrated robust estimator,
unconditionally write its pose into the output parameters, and fail when
fewer than 10 inliers survive. -/
def initialize_pinhole_camera (env : Env)
    (correspondences : List FeatureCorrespondence2D3D)
    (ransac_params : RansacParameters)
    (_ransac_summary0 : RansacSummary) (_rotation0 : Mat3)
    (_position0 : Vec3) (_focal_length0 : ℚ) (_verbose : Bool) :
    PinholeResult :=
  let res := env.estimateUncalibratedAbsolutePose ransac_params correspondences
  let success := res.1
  let pose_linear := res.2.1
  let ransac_summary := res.2.2
  { success := if ransac_summary.inliers.length < 10 then false else success
    ransac_summary := ransac_summary
    rotation := pose_linear.rotation
    position := pose_linear.position
    focal_length := pose_linear.focal_length }

/-- Result of initialize_radial_undistortion_camera. -/
structure RadialResult where
  success : Bool
  ransac_summary : RansacSummary
  rotation : Mat3
  position : Vec3
  focal_length : ℚ
  radial_distortion : ℚ
deriving DecidableEq

/-- The focal-length search window set by initialize_radial_undistortion_camera:
half the image width plus or minus 150 pixels. -/
def radialMetaData (img_cols : ℤ) : RadialPoseMetaData :=
  { min_focal_length := 1/2 * (img_cols : ℚ) - 150
    max_focal_length := 1/2 * (img_cols : ℚ) + 150 }

/-- initialize_radial_undistortion_camera: fail immediately on 4 or fewer
correspondences, otherwise run the radial-distortion estimator, convert the
camera-local translation to a world position via minus R transpose times t,
write all outputs, and fail when fewer than 10 inliers survive. -/
def initialize_radial_undistortion_camera (env : Env)
    (correspondences : List FeatureCorrespondence2D3D)
    (ransac_params : RansacParameters)
    (ransac_summary0 : RansacSummary) (img_cols : ℤ) (rotation0 : Mat3)
    (position0 : Vec3) (focal_length0 : ℚ) (radial_distortion0 : ℚ)
    (_verbose : Bool) : RadialResult :=
  if correspondences.length ≤ 4 then
    { success := false
      ransac_summary := ransac_summary0
      rotation := rotation0
      position := position0
      focal_length := focal_length0
      radial_distortion := radial_distortion0 }
  else
    let meta_data := radialMetaData img_cols
    let res := env.estimateRadialDistUncalibratedAbsolutePose ransac_params
      meta_data correspondences
    let success := res.1
    let pose_division_undist := res.2.1
    let ransac_summary := res.2.2
    { success := if ransac_summary.inliers.length < 10 then false else success
      ransac_summary := ransac_summary
      rotation := pose_division_undist.rotation
      position := -(pose_division_undist.rotation.transpose.mulVec
        pose_division_undist.translation)
      focal_length := pose_division_undist.focal_length
      radial_distortion := pose_division_undist.radial_distortion }

/-- The cv::aruco::CharucoBoard descriptor: only getChessboardSize is used. -/
structure CharucoBoard where
  width : ℕ
  height : ℕ
deriving DecidableEq

/-- Bundled inputs of initialize_doublesphere_model (everything except the
in-out reference parameters). -/
structure DSInput where
  env : Env
  correspondences : List FeatureCorrespondence2D3D
  charuco_ids : List ℤ
  charucoboard : CharucoBoard
  ransac_params : RansacParameters
  img_cols : ℤ
  img_rows : ℤ
  verbose : Bool

/-- DBL_MAX, the initial value of min_reproj_error, as an exact rational
literal; doubleMax_eq below checks it against its binary form. -/
def doubleMax : ℚ := 179769313486231570814527423731704356798070567525844996598917476803157260780028538760589558632766878171540458953514382464234321326889464182768467546703537516986049910576551282076245490090389328944075868508455133942304583236903222948165808559332123348274797826204144723168738177180919299881250404026184124858368

/-- MIN_CORNERS, the literal corner-count threshold in the source. -/
def MIN_CORNERS : ℕ := 8

/-- The id_to_corner map built at the top of initialize_doublesphere_model:
charuco_ids[i] maps to correspondences[i].feature, later writes winning. -/
def id_to_corner (inp : DSInput) (corner_id : ℤ) : Option Vec2 :=
  (((inp.charuco_ids.zip inp.correspondences).filter
    (fun p => decide (p.1 = corner_id))).getLast?).map (fun p => p.2.feature)

/-- Principal point x, fixed at the image center: img_cols / 2.0 - 0.5. -/
def ds_cu (inp : DSInput) : ℚ := (inp.img_cols : ℚ) / 2 - 1/2

/-- Principal point y, fixed at the image center: img_rows / 2.0 - 0.5. -/
def ds_cv (inp : DSInput) : ℚ := (inp.img_rows : ℚ) / 2 - 1/2

/-- The per-row point list P: for each column c of target row r whose corner
id r * target_cols + c was observed at pixel (x, y), the 4-vector
(x, y, 0.5, -0.5 * (x^2 + y^2)). -/
def rowP (inp : DSInput) (r : ℕ) : List Vec4 :=
  (List.range inp.charucoboard.width).filterMap (fun c =>
    match id_to_corner inp ((r * inp.charucoboard.width + c : ℕ) : ℤ) with
    | some ip => some ⟨ip.x, ip.y, 1/2, -(1/2) * (ip.x * ip.x + ip.y * ip.y)⟩
    | none => none)

/-- The row's null-space vector C: the right singular vector of the stacked
P matrix for the smallest singular value, delivered by the SVD oracle. -/
def rowC (inp : DSInput) (r : ℕ) : Vec4 := inp.env.svdNullVec (rowP inp r)

/-- t = C0^2 + C1^2 + C2 * C3. -/
def rowT (inp : DSInput) (r : ℕ) : ℚ :=
  (rowC inp r).c0 * (rowC inp r).c0 + (rowC inp r).c1 * (rowC inp r).c1 +
    (rowC inp r).c2 * (rowC inp r).c3

/-- d = sqrt(1 / t). -/
def rowD (inp : DSInput) (r : ℕ) : ℚ := inp.env.sqrt (1 / rowT inp r)

/-- nx = C0 * d. -/
def rowNx (inp : DSInput) (r : ℕ) : ℚ := (rowC inp r).c0 * rowD inp r

/-- ny = C1 * d. -/
def rowNy (inp : DSInput) (r : ℕ) : ℚ := (rowC inp r).c1 * rowD inp r

/-- nz = sqrt(1 - nx^2 - ny^2). -/
def rowNz (inp : DSInput) (r : ℕ) : ℚ :=
  inp.env.sqrt (1 - rowNx inp r * rowNx inp r - rowNy inp r * rowNy inp r)

/-- gamma = fabs(C2 * d / nz), the row's focal-length-scale candidate. -/
def rowGamma (inp : DSInput) (r : ℕ) : ℚ :=
  |(rowC inp r).c2 * rowD inp r / rowNz inp r|

/-- The double-sphere intrinsics guess built for row r: focal length
0.5 * gamma, principal point at the image center, aspect 1, xi 0.5 * 1,
alpha 0. -/
def rowIntrinsics (inp : DSInput) (r : ℕ) : DSIntrinsics :=
  { focal_length := 1/2 * rowGamma inp r
    principal_point_x := ds_cu inp
    principal_point_y := ds_cv inp
    aspect := 1
    xi := 1/2 * 1
    alpha := 0 }

/-- correspondences_new: a copy of the input correspondences whose 2D
features are replaced by undistorted normalized coordinates under the row's
intrinsics guess. -/
def rowCorsNew (inp : DSInput) (r : ℕ) : List FeatureCorrespondence2D3D :=
  inp.correspondences.map (fun cor =>
    let f := inp.env.pixelToNormalizedCoordinates (rowIntrinsics inp r) cor.feature
    { cor with feature := hnormalized f })

/-- The calibrated robust pose estimation run for row r (its boolean return
value is discarded by the source). -/
def rowEstimate (inp : DSInput) (r : ℕ) :
    Bool × CalibratedAbsolutePose × RansacSummary :=
  inp.env.estimateCalibratedAbsolutePose inp.ransac_params (rowCorsNew inp r)

/-- The pose estimated for row r. -/
def rowPose (inp : DSInput) (r : ℕ) : CalibratedAbsolutePose :=
  (rowEstimate inp r).2.1

/-- The ransac summary written by row r's estimator run. -/
def rowSummary (inp : DSInput) (r : ℕ) : RansacSummary :=
  (rowEstimate inp r).2.2

/-- The reprojection scan for row r: accumulate squared pixel error against
the original features and count reprojections landing inside
[0, img_cols) x [0, img_rows). -/
def rowReproj (inp : DSInput) (r : ℕ) : ℚ × ℕ :=
  ((rowCorsNew inp r).zip inp.correspondences).foldl (fun acc pr =>
    let pixel := inp.env.projectPoint (rowIntrinsics inp r) (rowPose inp r)
      (homogeneous pr.1.world_point)
    if 0 ≤ pixel.x ∧ 0 ≤ pixel.y ∧ pixel.x < (inp.img_cols : ℚ) ∧
        pixel.y < (inp.img_rows : ℚ) then
      (acc.1 + sqNorm (vsub pixel pr.2.feature), acc.2 + 1)
    else acc) (0, 0)

/-- in_image, the count of in-bounds reprojections for row r. -/
def rowInImage (inp : DSInput) (r : ℕ) : ℕ := (rowReproj inp r).2

/-- avg_reproj_error = repro_error / in_image for row r. -/
def rowAvgError (inp : DSInput) (r : ℕ) : ℚ :=
  (rowReproj inp r).1 / (rowInImage inp r : ℚ)

/-- The loop state of initialize_doublesphere_model: the local temporaries
plus the in-out reference parameters. -/
structure DSState where
  gamma0 : ℚ
  min_reproj_error : ℚ
  success : Bool
  ransac_summary : RansacSummary
  rotation : Mat3
  position : Vec3
  focal_length : ℚ
deriving DecidableEq

/-- Row r reaches the estimator call exactly when it passes the corner-count
gate, the sign gate on t, and the near-radial gate. -/
def rowRunsEstimator (inp : DSInput) (r : ℕ) : Prop :=
  (rowP inp r).length > MIN_CORNERS ∧ ¬ rowT inp r < 0 ∧
    ¬ inp.env.hypot (rowNx inp r) (rowNy inp r) > 0.95

instance (inp : DSInput) (r : ℕ) : Decidable (rowRunsEstimator inp r) := by
  unfold rowRunsEstimator
  infer_instance

/-- The tail of the row body, after the estimator has run: record the
summary, and when in_image exceeds MIN_CORNERS and the mean error beats both
the running best and the absolute ceiling 1000, record the candidate. -/
def recordStep (inp : DSInput) (r : ℕ) (st : DSState) : DSState :=
  if rowInImage inp r > MIN_CORNERS then
    if rowAvgError inp r < st.min_reproj_error ∧ rowAvgError inp r < 1000 then
      { gamma0 := rowGamma inp r
        min_reproj_error := rowAvgError inp r
        success := true
        ransac_summary := rowSummary inp r
        rotation := (rowPose inp r).rotation
        position := (rowPose inp r).position
        focal_length := 1/2 * rowGamma inp r }
    else { st with ransac_summary := rowSummary inp r }
  else { st with ransac_summary := rowSummary inp r }

/-- One iteration of the row loop of initialize_doublesphere_model. -/
def processRow (inp : DSInput) (r : ℕ) (st : DSState) : DSState :=
  if (rowP inp r).length > MIN_CORNERS then
    if rowT inp r < 0 then st
    else if inp.env.hypot (rowNx inp r) (rowNy inp r) > 0.95 then st
    else recordStep inp r st
  else st

/-- The row loop folded over an explicit list of row indices. -/
def dsLoopAux (inp : DSInput) (rows : List ℕ) (st : DSState) : DSState :=
  rows.foldl (fun s r => processRow inp r s) st

/-- The full row loop, over rows 0 .. target_rows - 1. -/
def dsLoop (inp : DSInput) (st : DSState) : DSState :=
  dsLoopAux inp (List.range inp.charucoboard.height) st

/-- The state at loop entry: gamma0 = 0, min_reproj_error = DBL_MAX,
success = false, and the caller-supplied in-out values. -/
def dsInitState (_inp : DSInput) (ransac_summary0 : RansacSummary)
    (rotation0 : Mat3) (position0 : Vec3) (focal_length0 : ℚ) : DSState :=
  { gamma0 := 0
    min_reproj_error := doubleMax
    success := false
    ransac_summary := ransac_summary0
    rotation := rotation0
    position := position0
    focal_length := focal_length0 }

/-- Result of initialize_doublesphere_model: the returned flag plus the
final values of the in-out reference parameters. -/
structure DSResult where
  success : Bool
  ransac_summary : RansacSummary
  rotation : Mat3
  position : Vec3
  focal_length : ℚ
deriving DecidableEq

/-- initialize_doublesphere_model: run the row loop, then fail when the
summary left by the most recent estimator run has fewer than 10 inliers,
otherwise return the recorded success flag. -/
def initialize_doublesphere_model (inp : DSInput)
    (ransac_summary0 : RansacSummary) (rotation0 : Mat3) (position0 : Vec3)
    (focal_length0 : ℚ) : DSResult :=
  let st := dsLoop inp
    (dsInitState inp ransac_summary0 rotation0 position0 focal_length0)
  { success := if st.ransac_summary.inliers.length < 10 then false else st.success
    ransac_summary := st.ransac_summary
    rotation := st.rotation
    position := st.position
    focal_length := st.focal_length }

/-! Concrete instances used by witnesses and counterexamples. -/

/-- A trivial oracle environment with constant collaborator answers. -/
def trivialEnv : Env :=
  { estimateUncalibratedAbsolutePose := fun _ _ => (true, ⟨1, ![0, 0, 0], 0⟩, ⟨[]⟩)
    estimateRadialDistUncalibratedAbsolutePose :=
      fun _ _ _ => (true, ⟨1, ![0, 0, 0], 0, 0⟩, ⟨[]⟩)
    estimateCalibratedAbsolutePose := fun _ _ => (true, ⟨1, ![0, 0, 0]⟩, ⟨[]⟩)
    svdNullVec := fun _ => ⟨0, 0, 0, 0⟩
    sqrt := fun q => q
    hypot := fun a b => a + b
    pixelToNormalizedCoordinates := fun _ v => ![v.x, v.y, 1]
    projectPoint := fun _ _ _ => ⟨0, 0⟩ }

/-- Five identical correspondences at the origin. -/
def cors5 : List FeatureCorrespondence2D3D :=
  List.replicate 5 ⟨⟨0, 0⟩, ![0, 0, 0]⟩

/-- A concrete non-identity rotation used by witnesses. -/
def cR8 : Mat3 := !![0, 1, 0; -1, 0, 0; 0, 0, 1]

/-- An environment whose estimators return concrete poses with a
10-element inlier set. -/
def cEnv8 : Env :=
  { trivialEnv with
    estimateUncalibratedAbsolutePose :=
      fun _ _ => (true, ⟨cR8, ![4, 5, 6], 700⟩, ⟨[0, 1, 2, 3, 4, 5, 6, 7, 8, 9]⟩)
    estimateRadialDistUncalibratedAbsolutePose :=
      fun _ _ _ =>
        (true, ⟨cR8, ![1, 2, 3], 700, -1/10⟩, ⟨[0, 1, 2, 3, 4, 5, 6, 7, 8, 9]⟩) }

/-- An environment whose estimators report success with concrete poses but
empty inlier sets. -/
def cEnv10 : Env :=
  { trivialEnv with
    estimateUncalibratedAbsolutePose := fun _ _ => (true, ⟨cR8, ![4, 5, 6], 700⟩, ⟨[]⟩)
    estimateRadialDistUncalibratedAbsolutePose :=
      fun _ _ _ => (true, ⟨cR8, ![1, 2, 3], 650, -1/5⟩, ⟨[0, 1]⟩) }

/-- The summary left behind by the most recent estimator run: scan the rows
in order, keeping the summary of each row that reaches the estimator call;
rows that fail the corner-count, sign, or near-radial gates leave it
unchanged. -/
def lastRunSummary (inp : DSInput) (s : RansacSummary) : RansacSummary :=
  (List.range inp.charucoboard.height).foldl
    (fun acc r => if rowRunsEstimator inp r then rowSummary inp r else acc) s

/-- A row qualifies for the best-candidate comparison when it reaches the
estimator, lands more than MIN_CORNERS reprojections in the image, and its
mean reprojection error is below the absolute ceiling 1000. -/
def rowQualifies (inp : DSInput) (r : ℕ) : Prop :=
  rowRunsEstimator inp r ∧ rowInImage inp r > MIN_CORNERS ∧
    rowAvgError inp r < 1000

instance (inp : DSInput) (r : ℕ) : Decidable (rowQualifies inp r) := by
  unfold rowQualifies
  infer_instance

/-- Invariant of the best-candidate search: while no candidate is recorded
the outputs keep their initial values and no seen row qualified; once one is
recorded, the state carries the data of some seen qualifying row, and the
running minimum is below every seen qualifying row's mean error. -/
def bestInv (inp : DSInput) (R0 : Mat3) (p0 : Vec3) (f0 : ℚ)
    (seen : List ℕ) (st : DSState) : Prop :=
  (st.success = false →
    st.min_reproj_error = doubleMax ∧ st.gamma0 = 0 ∧ st.rotation = R0 ∧
    st.position = p0 ∧ st.focal_length = f0 ∧
    ∀ r ∈ seen, ¬ rowQualifies inp r) ∧
  (st.success = true →
    ∃ r ∈ seen, rowQualifies inp r ∧
      st.min_reproj_error = rowAvgError inp r ∧
      st.gamma0 = rowGamma inp r ∧
      st.rotation = (rowPose inp r).rotation ∧
      st.position = (rowPose inp r).position ∧
      st.focal_length = 1/2 * rowGamma inp r) ∧
  (∀ r ∈ seen, rowQualifies inp r →
    st.min_reproj_error ≤ rowAvgError inp r)

/-- A trivial input with an empty board row and no correspondences. -/
def cInp0 : DSInput :=
  { env := trivialEnv
    correspondences := []
    charuco_ids := []
    charucoboard := ⟨0, 1⟩
    ransac_params := ⟨0⟩
    img_cols := 640
    img_rows := 480
    verbose := false }

/-- Corner ids 0 through 8, a full first board row. -/
def cIds9 : List ℤ := [0, 1, 2, 3, 4, 5, 6, 7, 8]

/-- Nine correspondences observed at the origin. -/
def cCors9 : List FeatureCorrespondence2D3D :=
  List.replicate 9 ⟨⟨0, 0⟩, ![0, 0, 0]⟩

/-- An environment whose SVD oracle gives a valid null vector but whose
hypot oracle reports a near-radial line. -/
def cEnv4 : Env :=
  { trivialEnv with
    svdNullVec := fun _ => ⟨0, 0, 1, 1⟩
    hypot := fun _ _ => 1 }

/-- An input whose single row has nine corners but is reported near-radial. -/
def cInp4 : DSInput :=
  { env := cEnv4
    correspondences := cCors9
    charuco_ids := cIds9
    charucoboard := ⟨9, 1⟩
    ransac_params := ⟨0⟩
    img_cols := 640
    img_rows := 480
    verbose := false }

/-- An environment whose single-row fit succeeds with gamma 1 and whose
calibrated estimator reports 10 inliers and a pose at the origin. -/
def cEnv2 : Env :=
  { trivialEnv with
    svdNullVec := fun _ => ⟨0, 0, 1, 1⟩
    estimateCalibratedAbsolutePose :=
      fun _ _ => (true, ⟨1, ![0, 0, 0]⟩, ⟨[0, 1, 2, 3, 4, 5, 6, 7, 8, 9]⟩) }

/-- An input with one full board row of nine corners at the origin, on which
every reprojection lands in the image: in_image is exactly 9. -/
def cInp2 : DSInput :=
  { env := cEnv2
    correspondences := cCors9
    charuco_ids := cIds9
    charucoboard := ⟨9, 1⟩
    ransac_params := ⟨0⟩
    img_cols := 640
    img_rows := 480
    verbose := false }

/-- Corner ids 0 through 17, two full board rows. -/
def cIds18 : List ℤ :=
  [0, 1, 2, 3, 4, 5, 6, 7, 8, 9, 10, 11, 12, 13, 14, 15, 16, 17]

/-- Eighteen correspondences: a first row observed at the origin and a
second row observed at x = 1. -/
def cCors18 : List FeatureCorrespondence2D3D :=
  List.replicate 9 ⟨⟨0, 0⟩, ![0, 0, 0]⟩ ++
    List.replicate 9 ⟨⟨1, 0⟩, ![0, 0, 0]⟩

/-- An environment distinguishing the two board rows: the SVD oracle yields
gamma 1 on the first row and gamma 1/2 on the second, the unprojection
oracle shifts x by the focal length, and the calibrated estimator returns
10 inliers exactly when the first undistorted x coordinate is at least 1/2.
The second row's estimator run therefore comes back with an empty inlier
set. -/
def cEnv1 : Env :=
  { trivialEnv with
    svdNullVec := fun P =>
      if (P.headD ⟨0, 0, 0, 0⟩).c0 = 0 then ⟨0, 0, 1, 1⟩ else ⟨0, 0, 2, 2⟩
    pixelToNormalizedCoordinates := fun intr v =>
      ![v.x + intr.focal_length, v.y, 1]
    estimateCalibratedAbsolutePose := fun _ cs =>
      (true, ⟨1, ![0, 0, 0]⟩,
        if (cs.headD ⟨⟨0, 0⟩, ![0, 0, 0]⟩).feature.x ≥ 1/2 then
          ⟨[0, 1, 2, 3, 4, 5, 6, 7, 8, 9]⟩
        else ⟨[]⟩) }

/-- A two-row input where the first row records a winning candidate with 10
inliers and the later second row reruns the estimator, loses the comparison,
and leaves behind an empty inlier summary. -/
def cInp1 : DSInput :=
  { env := cEnv1
    correspondences := cCors18
    charuco_ids := cIds18
    charucoboard := ⟨9, 2⟩
    ransac_params := ⟨0⟩
    img_cols := 640
    img_rows := 480
    verbose := false }

/-! Row-level lemmas about the doublesphere loop body. -/

/-- A row failing any of the three gates leaves the loop state unchanged. -/
theorem processRow_not_runs (inp : DSInput) (r : ℕ) (st : DSState)
    (h : ¬ rowRunsEstimator inp r) : processRow inp r st = st := by
  unfold processRow
  by_cases h1 : (rowP inp r).length > MIN_CORNERS
  · by_cases h2 : rowT inp r < 0
    · rw [if_pos h1, if_pos h2]
    · by_cases h3 : inp.env.hypot (rowNx inp r) (rowNy inp r) > 0.95
      · rw [if_pos h1, if_neg h2, if_pos h3]
      · exact absurd ⟨h1, h2, h3⟩ h
  · rw [if_neg h1]

/-- A row passing all three gates runs the estimator and the scoring tail. -/
theorem processRow_runs (inp : DSInput) (r : ℕ) (st : DSState)
    (h : rowRunsEstimator inp r) : processRow inp r st = recordStep inp r st := by
  obtain ⟨h1, h2, h3⟩ := h
  unfold processRow
  rw [if_pos h1, if_neg h2, if_neg h3]

/-- The scoring tail always stores the summary of the row's estimator run. -/
theorem recordStep_summary (inp : DSInput) (r : ℕ) (st : DSState) :
    (recordStep inp r st).ransac_summary = rowSummary inp r := by
  unfold recordStep
  split
  · split
    · rfl
    · rfl
  · rfl

/-- The loop state's summary after one row: the row's own estimator summary
when the row runs, the previous summary otherwise. -/
theorem processRow_summary (inp : DSInput) (r : ℕ) (st : DSState) :
    (processRow inp r st).ransac_summary =
      if rowRunsEstimator inp r then rowSummary inp r
      else st.ransac_summary := by
  by_cases h : rowRunsEstimator inp r
  · rw [processRow_runs inp r st h, if_pos h, recordStep_summary]
  · rw [processRow_not_runs inp r st h, if_neg h]

/-- Folding the loop over rows none of which reaches the estimator leaves
the state unchanged. -/
theorem dsLoopAux_skip (inp : DSInput) (rows : List ℕ) (st : DSState)
    (h : ∀ r ∈ rows, ¬ rowRunsEstimator inp r) : dsLoopAux inp rows st = st := by
  induction rows generalizing st with
  | nil => rfl
  | cons a l ih =>
    show dsLoopAux inp l (processRow inp a st) = st
    rw [processRow_not_runs inp a st (h a (by simp))]
    exact ih st (fun r hr => h r (by simp [hr]))

/-! Claim theorems. -/

/-- An if-then-else gate on the inlier count equals a conjunction. -/
theorem ite_gate_iff (b : Bool) (n : ℕ) :
    (if n < 10 then false else b) = true ↔ b = true ∧ 10 ≤ n := by
  split
  · simp
    omega
  · simp
    omega

/-- C7: initialize_pinhole_camera returns success exactly when the
uncalibrated robust estimator reports success and the resulting inlier count
is at least 10; fewer than 10 inliers force a failure return even when the
estimator reported success. -/
theorem pinhole_success_iff (env : Env)
    (correspondences : List FeatureCorrespondence2D3D)
    (ransac_params : RansacParameters) (s0 : RansacSummary) (R0 : Mat3)
    (p0 : Vec3) (f0 : ℚ) (v : Bool) :
    (initialize_pinhole_camera env correspondences ransac_params s0 R0 p0 f0
        v).success = true ↔
      (env.estimateUncalibratedAbsolutePose ransac_params
          correspondences).1 = true ∧
      10 ≤ (env.estimateUncalibratedAbsolutePose ransac_params
          correspondences).2.2.inliers.length := by
  exact ite_gate_iff _ _

/-- C7 witness: with a concrete environment reporting success and 10 inliers
the initializer succeeds. -/
theorem pinhole_success_iff_witness :
    (initialize_pinhole_camera cEnv8 cors5 ⟨0⟩ ⟨[]⟩ 1 ![0, 0, 0] 0
        false).success = true := by
  exact (pinhole_success_iff cEnv8 cors5 ⟨0⟩ ⟨[]⟩ 1 ![0, 0, 0] 0
    false).mpr (by decide)

/-- C6: with fewer than 5 correspondences, initialize_radial_undistortion_camera
returns failure immediately: the result is failure with every in-out
parameter left at its caller-supplied value, independent of the estimator
oracle. -/
theorem radial_insufficient_correspondences (env : Env)
    (correspondences : List FeatureCorrespondence2D3D)
    (ransac_params : RansacParameters) (s0 : RansacSummary) (img_cols : ℤ)
    (R0 : Mat3) (p0 : Vec3) (f0 : ℚ) (rd0 : ℚ) (v : Bool)
    (h : correspondences.length < 5) :
    initialize_radial_undistortion_camera env correspondences ransac_params
        s0 img_cols R0 p0 f0 rd0 v =
      { success := false
        ransac_summary := s0
        rotation := R0
        position := p0
        focal_length := f0
        radial_distortion := rd0 } := by
  unfold initialize_radial_undistortion_camera
  rw [if_pos (by omega)]

/-- C6 witness: the empty correspondence set fails immediately with untouched
outputs. -/
theorem radial_insufficient_correspondences_witness :
    initialize_radial_undistortion_camera cEnv8 [] ⟨0⟩ ⟨[3]⟩ 640 cR8
        ![7, 8, 9] 5 6 false =
      { success := false
        ransac_summary := ⟨[3]⟩
        rotation := cR8
        position := ![7, 8, 9]
        focal_length := 5
        radial_distortion := 6 } := by
  exact radial_insufficient_correspondences cEnv8 [] ⟨0⟩ ⟨[3]⟩ 640 cR8
    ![7, 8, 9] 5 6 false (by decide)

/-- C8: whenever estimation is attempted (at least 5 correspondences),
initialize_radial_undistortion_camera returns the world-frame camera
position minus R transpose times t computed from the estimator's
camera-local translation. -/
theorem radial_position_convention (env : Env)
    (correspondences : List FeatureCorrespondence2D3D)
    (ransac_params : RansacParameters) (s0 : RansacSummary) (img_cols : ℤ)
    (R0 : Mat3) (p0 : Vec3) (f0 : ℚ) (rd0 : ℚ) (v : Bool)
    (h : 4 < correspondences.length) :
    (initialize_radial_undistortion_camera env correspondences ransac_params
        s0 img_cols R0 p0 f0 rd0 v).position =
      -((env.estimateRadialDistUncalibratedAbsolutePose ransac_params
          (radialMetaData img_cols) correspondences).2.1.rotation.transpose.mulVec
        (env.estimateRadialDistUncalibratedAbsolutePose ransac_params
          (radialMetaData img_cols) correspondences).2.1.translation) := by
  unfold initialize_radial_undistortion_camera
  rw [if_neg (by omega)]

/-- C8 witness: with rotation swapping the first two axes and translation
(1, 2, 3), the returned position is (2, -1, -3). -/
theorem radial_position_convention_witness :
    (initialize_radial_undistortion_camera cEnv8 cors5 ⟨0⟩ ⟨[]⟩ 640 1
        ![0, 0, 0] 0 0 false).position = ![2, -1, -3] := by
  rw [radial_position_convention cEnv8 cors5 ⟨0⟩ ⟨[]⟩ 640 1 ![0, 0, 0] 0 0
    false (by decide)]
  show -(cR8.transpose.mulVec ![1, 2, 3]) = ![2, -1, -3]
  funext i
  fin_cases i <;>
    simp [cR8, Matrix.mulVec, Matrix.dotProduct, Fin.sum_univ_succ,
      Matrix.transpose, Matrix.vecHead, Matrix.vecTail, Matrix.of_apply,
      Function.comp]

/-- C10: on the failure path where the estimator ran but produced fewer than
10 inliers, both initialize_pinhole_camera and
initialize_radial_undistortion_camera still overwrite their output
parameters with the rejected estimate's values, for arbitrary caller-supplied
initial values. -/
theorem failure_path_overwrites_outputs (env : Env)
    (correspondences : List FeatureCorrespondence2D3D)
    (ransac_params : RansacParameters) (s0 : RansacSummary) (img_cols : ℤ)
    (R0 : Mat3) (p0 : Vec3) (f0 : ℚ) (rd0 : ℚ) (v : Bool) :
    ((env.estimateUncalibratedAbsolutePose ransac_params
          correspondences).2.2.inliers.length < 10 →
      (initialize_pinhole_camera env correspondences ransac_params s0 R0 p0
          f0 v).success = false ∧
      (initialize_pinhole_camera env correspondences ransac_params s0 R0 p0
          f0 v).rotation = (env.estimateUncalibratedAbsolutePose
          ransac_params correspondences).2.1.rotation ∧
      (initialize_pinhole_camera env correspondences ransac_params s0 R0 p0
          f0 v).position = (env.estimateUncalibratedAbsolutePose
          ransac_params correspondences).2.1.position ∧
      (initialize_pinhole_camera env correspondences ransac_params s0 R0 p0
          f0 v).focal_length = (env.estimateUncalibratedAbsolutePose
          ransac_params correspondences).2.1.focal_length) ∧
    (4 < correspondences.length →
      (env.estimateRadialDistUncalibratedAbsolutePose ransac_params
          (radialMetaData img_cols) correspondences).2.2.inliers.length < 10 →
      (initialize_radial_undistortion_camera env correspondences
          ransac_params s0 img_cols R0 p0 f0 rd0 v).success = false ∧
      (initialize_radial_undistortion_camera env correspondences
          ransac_params s0 img_cols R0 p0 f0 rd0 v).rotation =
        (env.estimateRadialDistUncalibratedAbsolutePose ransac_params
          (radialMetaData img_cols) correspondences).2.1.rotation ∧
      (initialize_radial_undistortion_camera env correspondences
          ransac_params s0 img_cols R0 p0 f0 rd0 v).position =
        -((env.estimateRadialDistUncalibratedAbsolutePose ransac_params
          (radialMetaData img_cols) correspondences).2.1.rotation.transpose.mulVec
          (env.estimateRadialDistUncalibratedAbsolutePose ransac_params
          (radialMetaData img_cols) correspondences).2.1.translation) ∧
      (initialize_radial_undistortion_camera env correspondences
          ransac_params s0 img_cols R0 p0 f0 rd0 v).focal_length =
        (env.estimateRadialDistUncalibratedAbsolutePose ransac_params
          (radialMetaData img_cols) correspondences).2.1.focal_length ∧
      (initialize_radial_undistortion_camera env correspondences
          ransac_params s0 img_cols R0 p0 f0 rd0 v).radial_distortion =
        (env.estimateRadialDistUncalibratedAbsolutePose ransac_params
          (radialMetaData img_cols) correspondences).2.1.radial_distortion) := by
  constructor
  · intro h
    refine ⟨?_, rfl, rfl, rfl⟩
    show (if (env.estimateUncalibratedAbsolutePose ransac_params
        correspondences).2.2.inliers.length < 10 then false else
        (env.estimateUncalibratedAbsolutePose ransac_params
        correspondences).1) = false
    rw [if_pos h]
  · intro hn h
    have key : initialize_radial_undistortion_camera env correspondences
        ransac_params s0 img_cols R0 p0 f0 rd0 v =
      { success := if (env.estimateRadialDistUncalibratedAbsolutePose
            ransac_params (radialMetaData img_cols)
            correspondences).2.2.inliers.length < 10 then false
          else (env.estimateRadialDistUncalibratedAbsolutePose ransac_params
            (radialMetaData img_cols) correspondences).1
        ransac_summary := (env.estimateRadialDistUncalibratedAbsolutePose
          ransac_params (radialMetaData img_cols) correspondences).2.2
        rotation := (env.estimateRadialDistUncalibratedAbsolutePose
          ransac_params (radialMetaData img_cols) correspondences).2.1.rotation
        position := -((env.estimateRadialDistUncalibratedAbsolutePose
          ransac_params (radialMetaData img_cols)
          correspondences).2.1.rotation.transpose.mulVec
          (env.estimateRadialDistUncalibratedAbsolutePose ransac_params
          (radialMetaData img_cols) correspondences).2.1.translation)
        focal_length := (env.estimateRadialDistUncalibratedAbsolutePose
          ransac_params (radialMetaData img_cols)
          correspondences).2.1.focal_length
        radial_distortion := (env.estimateRadialDistUncalibratedAbsolutePose
          ransac_params (radialMetaData img_cols)
          correspondences).2.1.radial_distortion } := by
      unfold initialize_radial_undistortion_camera
      rw [if_neg (by omega)]
    rw [key]
    exact ⟨by rw [if_pos h], rfl, rfl, rfl, rfl⟩

/-- C10 witness: with an estimator returning success but too few inliers and
zero initial outputs, both initializers fail yet report the rejected
estimate's focal length and rotation. -/
theorem failure_path_overwrites_outputs_witness :
    (initialize_pinhole_camera cEnv10 cors5 ⟨0⟩ ⟨[]⟩ 1 ![0, 0, 0] 0
        false).success = false ∧
    (initialize_pinhole_camera cEnv10 cors5 ⟨0⟩ ⟨[]⟩ 1 ![0, 0, 0] 0
        false).focal_length = 700 ∧
    (initialize_radial_undistortion_camera cEnv10 cors5 ⟨0⟩ ⟨[]⟩ 640 1
        ![0, 0, 0] 0 0 false).success = false ∧
    (initialize_radial_undistortion_camera cEnv10 cors5 ⟨0⟩ ⟨[]⟩ 640 1
        ![0, 0, 0] 0 0 false).rotation = cR8 := by
  have h := failure_path_overwrites_outputs cEnv10 cors5 ⟨0⟩ ⟨[]⟩ 640 1
    ![0, 0, 0] 0 0 false
  have h1 := h.1 (by decide)
  have h2 := h.2 (by decide) (by decide)
  refine ⟨h1.1, ?_, h2.1, ?_⟩
  · rw [h1.2.2.2]
    rfl
  · rw [h2.2.1]
    rfl

/-- C3: a target row whose point list P has fewer than 9 observed corners is
skipped entirely: the loop state, including the recorded candidate and the
ransac summary, is exactly what it was before the row. -/
theorem doublesphere_row_min_corners_skip (inp : DSInput) (r : ℕ)
    (st : DSState) (h : (rowP inp r).length < 9) : processRow inp r st = st := by
  unfold processRow
  rw [if_neg (by unfold MIN_CORNERS; omega)]

/-- C3 witness: a row with no observed corners leaves the initial state
untouched. -/
theorem doublesphere_row_min_corners_skip_witness :
    processRow cInp0 0 (dsInitState cInp0 ⟨[]⟩ 1 ![0, 0, 0] 0) =
      dsInitState cInp0 ⟨[]⟩ 1 ![0, 0, 0] 0 :=
  doublesphere_row_min_corners_skip cInp0 0
    (dsInitState cInp0 ⟨[]⟩ 1 ![0, 0, 0] 0) (by decide)

/-- C4: a row whose null-space vector gives t below 0, or whose normalized
line direction is near-radial (hypot above 0.95), is skipped without running
the estimator; and when no row of the board reaches the estimator the call
reports overall failure with all outputs at their initial values. -/
theorem doublesphere_degenerate_row_skip (inp : DSInput) :
    (∀ r st, (rowT inp r < 0 ∨
        inp.env.hypot (rowNx inp r) (rowNy inp r) > 0.95) →
      processRow inp r st = st) ∧
    ((∀ r, r < inp.charucoboard.height → ¬ rowRunsEstimator inp r) →
      ∀ s0 R0 p0 f0,
        initialize_doublesphere_model inp s0 R0 p0 f0 =
          ⟨false, s0, R0, p0, f0⟩) := by
  constructor
  · intro r st h
    apply processRow_not_runs
    rintro ⟨h1, h2, h3⟩
    rcases h with h | h
    · exact h2 h
    · exact h3 h
  · intro hall s0 R0 p0 f0
    have hloop : dsLoop inp (dsInitState inp s0 R0 p0 f0) =
        dsInitState inp s0 R0 p0 f0 := by
      apply dsLoopAux_skip
      intro r hr
      exact hall r (List.mem_range.mp hr)
    show DSResult.mk
      (if (dsLoop inp (dsInitState inp s0 R0 p0
        f0)).ransac_summary.inliers.length < 10 then false
       else (dsLoop inp (dsInitState inp s0 R0 p0 f0)).success)
      (dsLoop inp (dsInitState inp s0 R0 p0 f0)).ransac_summary
      (dsLoop inp (dsInitState inp s0 R0 p0 f0)).rotation
      (dsLoop inp (dsInitState inp s0 R0 p0 f0)).position
      (dsLoop inp (dsInitState inp s0 R0 p0 f0)).focal_length =
      ⟨false, s0, R0, p0, f0⟩
    rw [hloop]
    show DSResult.mk (if s0.inliers.length < 10 then false else false)
      s0 R0 p0 f0 = ⟨false, s0, R0, p0, f0⟩
    rw [ite_self]

/-- C4 witness: a board whose only row has nine corners but is reported
near-radial fails overall, even with a caller-supplied summary holding 20
inliers. -/
theorem doublesphere_degenerate_row_skip_witness :
    initialize_doublesphere_model cInp4 ⟨List.range 20⟩ 1 ![0, 0, 0] 0 =
      ⟨false, ⟨List.range 20⟩, 1, ![0, 0, 0], 0⟩ ∧
    (rowP cInp4 0).length > 8 ∧
    cEnv4.hypot (rowNx cInp4 0) (rowNy cInp4 0) > 0.95 := by
  refine ⟨(doublesphere_degenerate_row_skip cInp4).2 ?_ ⟨List.range 20⟩ 1
    ![0, 0, 0] 0, by decide,
    of_decide_eq_true (by with_unfolding_all rfl)⟩
  exact of_decide_eq_true (by with_unfolding_all rfl)

set_option maxRecDepth 100000 in
/-- C2 counterexample: on a one-row board where exactly 9 reprojections land
in the image, the row does record a candidate and the call succeeds with
this row's focal length, contradicting the claim that rows with in_image at
most 9 record nothing. -/
theorem doublesphere_in_image_nine_counterexample :
    rowInImage cInp2 0 = 9 ∧
    (initialize_doublesphere_model cInp2 ⟨[]⟩ 1 ![0, 0, 0] 0).success = true ∧
    (initialize_doublesphere_model cInp2 ⟨[]⟩ 1 ![0, 0, 0] 0).focal_length =
      1/2 * rowGamma cInp2 0 := by
  refine ⟨by with_unfolding_all rfl, by with_unfolding_all rfl,
    by with_unfolding_all rfl⟩

/-- C2 amended: a row candidate is considered for recording as best, with
its mean reprojection error computed and compared, only when in_image
exceeds the literal MIN_CORNERS = 8; for every row with in_image at most 8
no candidate is recorded from that row (only the ransac summary may
change). -/
theorem doublesphere_in_image_gate (inp : DSInput) (r : ℕ) (st : DSState)
    (h : rowInImage inp r ≤ 8) :
    (processRow inp r st).gamma0 = st.gamma0 ∧
    (processRow inp r st).min_reproj_error = st.min_reproj_error ∧
    (processRow inp r st).success = st.success ∧
    (processRow inp r st).rotation = st.rotation ∧
    (processRow inp r st).position = st.position ∧
    (processRow inp r st).focal_length = st.focal_length := by
  by_cases hr : rowRunsEstimator inp r
  · rw [processRow_runs inp r st hr]
    unfold recordStep
    rw [if_neg (by unfold MIN_CORNERS; omega)]
    exact ⟨rfl, rfl, rfl, rfl, rfl, rfl⟩
  · rw [processRow_not_runs inp r st hr]
    exact ⟨rfl, rfl, rfl, rfl, rfl, rfl⟩

/-- C2 amended witness: a row with zero in-image reprojections records
nothing. -/
theorem doublesphere_in_image_gate_witness :
    (processRow cInp0 0 (dsInitState cInp0 ⟨[]⟩ 1 ![0, 0, 0] 0)).success =
      (dsInitState cInp0 ⟨[]⟩ 1 ![0, 0, 0] 0).success :=
  (doublesphere_in_image_gate cInp0 0 (dsInitState cInp0 ⟨[]⟩ 1 ![0, 0, 0] 0)
    (by decide)).2.2.1

/-- The doubleMax literal is the IEEE double maximum in binary form. -/
theorem doubleMax_eq : doubleMax = (2 ^ 53 - 1) * 2 ^ 971 := by
  norm_num [doubleMax]

/-- The best-candidate ceiling 1000 is below the initial minimum DBL_MAX. -/
theorem thousand_lt_doubleMax : (1000 : ℚ) < doubleMax := by
  norm_num [doubleMax]

/-- C9: correspondences_new is a fresh copy of the caller's correspondence
list: it has the same length, every element keeps the original 3D world
point, and each 2D feature is the undistorted normalized coordinate of the
original feature under the row's intrinsics guess; the caller's list itself
is never modified (the embedding derives the copy purely from it). -/
theorem doublesphere_correspondences_copy (inp : DSInput) (r : ℕ) :
    (rowCorsNew inp r).length = inp.correspondences.length ∧
    (rowCorsNew inp r).map (fun c => c.world_point) =
      inp.correspondences.map (fun c => c.world_point) ∧
    ∀ i (h1 : i < (rowCorsNew inp r).length)
      (h2 : i < inp.correspondences.length),
      ((rowCorsNew inp r).get ⟨i, h1⟩).world_point =
        (inp.correspondences.get ⟨i, h2⟩).world_point ∧
      ((rowCorsNew inp r).get ⟨i, h1⟩).feature =
        hnormalized (inp.env.pixelToNormalizedCoordinates
          (rowIntrinsics inp r) (inp.correspondences.get ⟨i, h2⟩).feature) := by
  refine ⟨by simp [rowCorsNew], ?_, ?_⟩
  · unfold rowCorsNew
    rw [List.map_map]
    rfl
  · intro i h1 h2
    unfold rowCorsNew at h1 ⊢
    constructor
    · simp [List.get_eq_getElem, List.getElem_map]
    · simp [List.get_eq_getElem, List.getElem_map]

/-- C9 witness: on the concrete one-row input the copy has length 9 and its
first feature is the undistorted normalized coordinate of the first original
feature. -/
theorem doublesphere_correspondences_copy_witness :
    (rowCorsNew cInp2 0).length = 9 ∧
    ((rowCorsNew cInp2 0).get ⟨0, by decide⟩).feature =
      hnormalized (cInp2.env.pixelToNormalizedCoordinates
        (rowIntrinsics cInp2 0)
        (cInp2.correspondences.get ⟨0, by decide⟩).feature) :=
  ⟨(doublesphere_correspondences_copy cInp2 0).1.trans (by decide),
    ((doublesphere_correspondences_copy cInp2 0).2.2 0 (by decide)
      (by decide)).2⟩

/-- The loop state's summary after folding a row list is the scan that keeps
the summary of the last row reaching the estimator. -/
theorem dsLoopAux_summary (inp : DSInput) (rows : List ℕ) (st : DSState) :
    (dsLoopAux inp rows st).ransac_summary =
      rows.foldl (fun acc r =>
        if rowRunsEstimator inp r then rowSummary inp r else acc)
        st.ransac_summary := by
  induction rows generalizing st with
  | nil => rfl
  | cons a l ih =>
    show (dsLoopAux inp l (processRow inp a st)).ransac_summary = _
    rw [ih (processRow inp a st), processRow_summary]
    rfl

set_option maxRecDepth 400000 in
/-- C1: after the row loop the wide-angle initializer returns failure
whenever the summary of the most recently run estimator (the last row that
reached the estimator call, not necessarily the winning row) has fewer than
10 inliers, and otherwise returns the recorded success flag; on a concrete
two-row input whose first row records a winning candidate with 10 inliers,
a later losing row's 0-inlier summary still forces a failure return. -/
theorem doublesphere_last_run_inlier_gate :
    (∀ (inp : DSInput) (s0 : RansacSummary) (R0 : Mat3) (p0 : Vec3) (f0 : ℚ),
      (initialize_doublesphere_model inp s0 R0 p0 f0).success =
        if (lastRunSummary inp s0).inliers.length < 10 then false
        else (dsLoop inp (dsInitState inp s0 R0 p0 f0)).success) ∧
    ((dsLoop cInp1 (dsInitState cInp1 ⟨[]⟩ 1 ![0, 0, 0] 0)).success = true ∧
      (initialize_doublesphere_model cInp1 ⟨[]⟩ 1 ![0, 0, 0] 0).success =
        false) := by
  constructor
  · intro inp s0 R0 p0 f0
    have h := dsLoopAux_summary inp (List.range inp.charucoboard.height)
      (dsInitState inp s0 R0 p0 f0)
    show (if (dsLoop inp (dsInitState inp s0 R0 p0
        f0)).ransac_summary.inliers.length < 10 then false
        else (dsLoop inp (dsInitState inp s0 R0 p0 f0)).success) = _
    rw [show (dsLoop inp (dsInitState inp s0 R0 p0 f0)).ransac_summary =
      lastRunSummary inp s0 from h]
  · exact ⟨by with_unfolding_all rfl, by with_unfolding_all rfl⟩

/-- The loop entry state satisfies the best-candidate invariant. -/
theorem bestInv_init (inp : DSInput) (s0 : RansacSummary) (R0 : Mat3)
    (p0 : Vec3) (f0 : ℚ) :
    bestInv inp R0 p0 f0 [] (dsInitState inp s0 R0 p0 f0) := by
  refine ⟨?_, ?_, ?_⟩
  · intro _
    exact ⟨rfl, rfl, rfl, rfl, rfl, fun x hx => absurd hx (List.not_mem_nil x)⟩
  · intro hs
    exact Bool.noConfusion hs
  · intro x hx
    exact absurd hx (List.not_mem_nil x)

/-- One loop iteration preserves the best-candidate invariant, extending the
seen rows by the processed one. -/
theorem bestInv_step (inp : DSInput) (R0 : Mat3) (p0 : Vec3) (f0 : ℚ)
    (seen : List ℕ) (st : DSState) (r : ℕ)
    (h : bestInv inp R0 p0 f0 seen st) :
    bestInv inp R0 p0 f0 (seen ++ [r]) (processRow inp r st) := by
  obtain ⟨hf, ht, hmin⟩ := h
  by_cases hrun : rowRunsEstimator inp r
  case neg =>
    rw [processRow_not_runs inp r st hrun]
    refine ⟨?_, ?_, ?_⟩
    · intro hs
      obtain ⟨a1, a2, a3, a4, a5, a6⟩ := hf hs
      refine ⟨a1, a2, a3, a4, a5, ?_⟩
      intro x hx
      rcases List.mem_append.mp hx with hx | hx
      · exact a6 x hx
      · have hxr : x = r := by simpa using hx
        subst hxr
        intro hq
        exact hrun hq.1
    · intro hs
      obtain ⟨a, ha, rest⟩ := ht hs
      exact ⟨a, List.mem_append_left _ ha, rest⟩
    · intro x hx hq
      rcases List.mem_append.mp hx with hx | hx
      · exact hmin x hx hq
      · have hxr : x = r := by simpa using hx
        subst hxr
        exact absurd hq.1 hrun
  case pos =>
    rw [processRow_runs inp r st hrun]
    unfold recordStep
    by_cases him : rowInImage inp r > MIN_CORNERS
    case neg =>
      rw [if_neg him]
      refine ⟨?_, ?_, ?_⟩
      · intro hs
        obtain ⟨a1, a2, a3, a4, a5, a6⟩ := hf hs
        refine ⟨a1, a2, a3, a4, a5, ?_⟩
        intro x hx
        rcases List.mem_append.mp hx with hx | hx
        · exact a6 x hx
        · have hxr : x = r := by simpa using hx
          subst hxr
          intro hq
          exact him hq.2.1
      · intro hs
        obtain ⟨a, ha, rest⟩ := ht hs
        exact ⟨a, List.mem_append_left _ ha, rest⟩
      · intro x hx hq
        rcases List.mem_append.mp hx with hx | hx
        · exact hmin x hx hq
        · have hxr : x = r := by simpa using hx
          subst hxr
          exact absurd hq.2.1 him
    case pos =>
      rw [if_pos him]
      by_cases hrec : rowAvgError inp r < st.min_reproj_error ∧
        rowAvgError inp r < 1000
      case pos =>
        rw [if_pos hrec]
        refine ⟨?_, ?_, ?_⟩
        · intro hs
          exact Bool.noConfusion hs
        · intro _
          exact ⟨r, List.mem_append_right _ (by simp), ⟨hrun, him, hrec.2⟩,
            rfl, rfl, rfl, rfl, rfl⟩
        · intro x hx hq
          rcases List.mem_append.mp hx with hx | hx
          · exact le_of_lt (lt_of_lt_of_le hrec.1 (hmin x hx hq))
          · have hxr : x = r := by simpa using hx
            subst hxr
            exact le_refl _
      case neg =>
        rw [if_neg hrec]
        refine ⟨?_, ?_, ?_⟩
        · intro hs
          obtain ⟨a1, a2, a3, a4, a5, a6⟩ := hf hs
          refine ⟨a1, a2, a3, a4, a5, ?_⟩
          intro x hx
          rcases List.mem_append.mp hx with hx | hx
          · exact a6 x hx
          · have hxr : x = r := by simpa using hx
            subst hxr
            intro hq
            apply hrec
            refine ⟨?_, hq.2.2⟩
            rw [a1]
            exact lt_trans hq.2.2 thousand_lt_doubleMax
        · intro hs
          obtain ⟨a, ha, rest⟩ := ht hs
          exact ⟨a, List.mem_append_left _ ha, rest⟩
        · intro x hx hq
          rcases List.mem_append.mp hx with hx | hx
          · exact hmin x hx hq
          · have hxr : x = r := by simpa using hx
            subst hxr
            by_contra hlt
            push_neg at hlt
            exact hrec ⟨hlt, hq.2.2⟩

/-- Folding the loop over any row list preserves the invariant. -/
theorem bestInv_fold (inp : DSInput) (R0 : Mat3) (p0 : Vec3) (f0 : ℚ)
    (rows : List ℕ) :
    ∀ (seen : List ℕ) (st : DSState), bestInv inp R0 p0 f0 seen st →
      bestInv inp R0 p0 f0 (seen ++ rows) (dsLoopAux inp rows st) := by
  induction rows with
  | nil =>
    intro seen st h
    simpa using h
  | cons a l ih =>
    intro seen st h
    have h2 := ih (seen ++ [a]) (processRow inp a st)
      (bestInv_step inp R0 p0 f0 seen st a h)
    rw [List.append_cons]
    exact h2

/-- C5: a row's candidate is recorded as the new best exactly when its mean
reprojection error is strictly below the best seen so far and strictly below
1000; consequently the loop succeeds exactly when some row qualifies, the
final minimum is the least qualifying mean error, and the recorded rotation,
position, and focal length 0.5 gamma are those of a qualifying row attaining
that minimum. -/
theorem doublesphere_best_candidate_minimal (inp : DSInput)
    (s0 : RansacSummary) (R0 : Mat3) (p0 : Vec3) (f0 : ℚ) :
    ((dsLoop inp (dsInitState inp s0 R0 p0 f0)).success = true →
      ∃ r, r < inp.charucoboard.height ∧ rowQualifies inp r ∧
        (dsLoop inp (dsInitState inp s0 R0 p0 f0)).min_reproj_error =
          rowAvgError inp r ∧
        (dsLoop inp (dsInitState inp s0 R0 p0 f0)).gamma0 = rowGamma inp r ∧
        (dsLoop inp (dsInitState inp s0 R0 p0 f0)).rotation =
          (rowPose inp r).rotation ∧
        (dsLoop inp (dsInitState inp s0 R0 p0 f0)).position =
          (rowPose inp r).position ∧
        (dsLoop inp (dsInitState inp s0 R0 p0 f0)).focal_length =
          1/2 * rowGamma inp r) ∧
    (∀ r, r < inp.charucoboard.height → rowQualifies inp r →
      (dsLoop inp (dsInitState inp s0 R0 p0 f0)).min_reproj_error ≤
        rowAvgError inp r) ∧
    ((dsLoop inp (dsInitState inp s0 R0 p0 f0)).success = true ↔
      ∃ r, r < inp.charucoboard.height ∧ rowQualifies inp r) ∧
    (∀ r st, rowRunsEstimator inp r → rowInImage inp r > MIN_CORNERS →
      processRow inp r st =
        if rowAvgError inp r < st.min_reproj_error ∧
            rowAvgError inp r < 1000 then
          ⟨rowGamma inp r, rowAvgError inp r, true, rowSummary inp r,
            (rowPose inp r).rotation, (rowPose inp r).position,
            1/2 * rowGamma inp r⟩
        else { st with ransac_summary := rowSummary inp r }) := by
  have hInv := bestInv_fold inp R0 p0 f0 (List.range inp.charucoboard.height)
    [] (dsInitState inp s0 R0 p0 f0) (bestInv_init inp s0 R0 p0 f0)
  rw [List.nil_append] at hInv
  refine ⟨?_, ?_, ⟨?_, ?_⟩, ?_⟩
  · intro hs
    obtain ⟨a, ha, hq, h1, h2, h3, h4, h5⟩ := hInv.2.1 hs
    exact ⟨a, List.mem_range.mp ha, hq, h1, h2, h3, h4, h5⟩
  · intro r hr hq
    exact hInv.2.2 r (List.mem_range.mpr hr) hq
  · intro hs
    obtain ⟨a, ha, hq, _⟩ := hInv.2.1 hs
    exact ⟨a, List.mem_range.mp ha, hq⟩
  · rintro ⟨r, hr, hq⟩
    cases hsucc : (dsLoop inp (dsInitState inp s0 R0 p0 f0)).success with
    | false =>
      exact absurd hq ((hInv.1 hsucc).2.2.2.2.2 r (List.mem_range.mpr hr))
    | true => rfl
  · intro r st hrun him
    rw [processRow_runs inp r st hrun]
    unfold recordStep
    rw [if_pos him]

set_option maxRecDepth 400000 in
/-- C5 witness: on the concrete one-row input the loop succeeds, row 0
qualifies, and the recorded focal length is half that row's gamma. -/
theorem doublesphere_best_candidate_minimal_witness :
    (dsLoop cInp2 (dsInitState cInp2 ⟨[]⟩ 1 ![0, 0, 0] 0)).success = true ∧
    (dsLoop cInp2 (dsInitState cInp2 ⟨[]⟩ 1 ![0, 0, 0] 0)).focal_length =
      1/2 * rowGamma cInp2 0 := by
  have h := doublesphere_best_candidate_minimal cInp2 ⟨[]⟩ 1 ![0, 0, 0] 0
  have hq : rowQualifies cInp2 0 := of_decide_eq_true (by with_unfolding_all rfl)
  have hs := h.2.2.1.mpr ⟨0, by decide, hq⟩
  obtain ⟨r, hr, _, _, _, _, _, hf⟩ := h.1 hs
  have hh : cInp2.charucoboard.height = 1 := rfl
  rw [hh] at hr
  have hr0 : r = 0 := by omega
  subst hr0
  exact ⟨hs, hf⟩

end OpenCamCalib
